import Mathlib

/-!
Shallow embedding of `src/api_bsl.py` (class `APIbureau` and its facade
`process_cpi_series`) from the `cpi_analysis` repository.

Modelling conventions:
* A pandas `DataFrame` of observation rows is a `List Row`; `df.empty`
  is `df = []`; `pd.concat(list_df, ignore_index=True)` is `List.flatten`.
* Python `float` values are modelled exactly (`PyFloat` carrying an
  exact decimal `mant / 10 ^ scale`, plus `inf`/`nan` tokens); Python
  string-to-float conversion is the executable parser `parsePyFloat`
  (sign, digits, decimal point, exponent, `inf`/`infinity`/`nan`,
  surrounding whitespace).
* `pd.to_datetime(..., format = "%Y-%m", errors = "coerce")` is
  `parseYM`, which follows CPython strptime: `%Y` is exactly four
  digits, `%m` is `1..12` with optional zero padding, the whole string
  must match; failures give `none` (pandas `NaT`).  The pandas
  representable-timestamp range (years 1677..2262) is not modelled.
* `df.sort_values(by := "date")` is a stable ascending sort with nulls
  placed last (`na_position` default "last").
* `raise ValueError(msg)` is `Except.error msg`; an `Except.error`
  result carries no effects, so nothing is written or plotted on the
  raising paths.
* The HTTP layer is external: `__generic_request` is modelled as a
  function of the received response (`generic_request`), and the range
  splitter / facade are parametrised by a `fetch` function standing for
  one `__generic_request` call per `(ticker, start_year, end_year)`.
-/

deriving instance DecidableEq for Except

namespace CpiAnalysis

/-- Result of Python `float(s)`: an exact decimal `mant / 10 ^ scale`
(kept unreduced so every operation is plain integer arithmetic), an
infinity, or a NaN. -/
inductive PyFloat where
  | num (mant : Int) (scale : Nat)
  | inf (neg : Bool)
  | nan
deriving DecidableEq

/-- A cell of the `value` column: a raw string before cleaning, a parsed
float afterwards (`astype(float)` leaves floats unchanged). -/
inductive Cell where
  | str (s : String)
  | num (x : PyFloat)
deriving DecidableEq

/-- One observation row.  The API delivers `year`, `period` and `value` as
strings; `__clean_dataframe` adds the derived `date` column (absent, i.e.
meaningless, before cleaning — raw rows carry the default `none`). -/
structure Row where
  year : String
  period : String
  value : Cell
  date : Option (Nat × Nat) := none
deriving DecidableEq

/-! ### Python float parsing (for `df["value"].astype(float)`) -/

def isDigits (l : List Char) : Bool := l.all (·.isDigit)

def digitsToNat (l : List Char) : Nat :=
  l.foldl (fun a c => a * 10 + (c.toNat - 48)) 0

/-- Strip one optional leading sign; returns (isNegative, rest). -/
def parseSign : List Char → Bool × List Char
  | '+' :: r => (false, r)
  | '-' :: r => (true, r)
  | r => (false, r)

/-- Unsigned decimal mantissa: digits with at most one point, at least one
digit overall (`"1"`, `"1.5"`, `".5"`, `"5."`).  Returns the digit value
and the number of fractional digits (the decimal scale). -/
def parseUnsignedDec (cs : List Char) : Option (Nat × Nat) :=
  match cs.splitOn '.' with
  | [ip] =>
    if ip ≠ [] ∧ isDigits ip then some (digitsToNat ip, 0) else none
  | [ip, fp] =>
    if (ip ≠ [] ∨ fp ≠ []) ∧ isDigits ip ∧ isDigits fp then
      some (digitsToNat ip * 10 ^ fp.length + digitsToNat fp, fp.length)
    else none
  | _ => none

/-- Signed exponent digits after `e`/`E`. -/
def parseExp (cs : List Char) : Option ℤ :=
  let p := parseSign cs
  if p.2 ≠ [] ∧ isDigits p.2 then
    some (if p.1 then -(digitsToNat p.2 : ℤ) else (digitsToNat p.2 : ℤ))
  else none

/-- Split at the first `e`/`E` into mantissa and optional exponent text. -/
def splitExp : List Char → List Char × Option (List Char)
  | [] => ([], none)
  | c :: r =>
    if c = 'e' ∨ c = 'E' then ([], some r)
    else
      let p := splitExp r
      (c :: p.1, p.2)

/-- Strip surrounding whitespace, as Python `str.strip()` does before
`float` conversion. -/
def pyStrip (l : List Char) : List Char :=
  ((l.dropWhile Char.isWhitespace).reverse.dropWhile Char.isWhitespace).reverse

/-- Scale an exact decimal `mant / 10 ^ scale` by `10 ^ e`. -/
def applyExp (mant : Int) (scale : Nat) (e : Int) : PyFloat :=
  if 0 ≤ e then .num (mant * 10 ^ e.toNat) scale
  else .num mant (scale + (-e).toNat)

/-- Python `float(s)`: surrounding whitespace stripped, optional sign,
case-insensitive `inf`/`infinity`/`nan`, or decimal mantissa with optional
exponent.  `none` models `ValueError`.  (Digit-group underscores, a rare
Python 3.6+ extension, are not modelled.) -/
def parsePyFloat (s : String) : Option PyFloat :=
  let cs := pyStrip s.toList
  let sp := parseSign cs
  let low := sp.2.map Char.toLower
  if low = "inf".toList ∨ low = "infinity".toList then some (.inf sp.1)
  else if low = "nan".toList then some .nan
  else
    let me := splitExp sp.2
    match parseUnsignedDec me.1 with
    | none => none
    | some m =>
      let sm : Int := if sp.1 then -(m.1 : Int) else (m.1 : Int)
      match me.2 with
      | none => some (.num sm m.2)
      | some ec =>
        match parseExp ec with
        | none => none
        | some e => some (applyExp sm m.2 e)

/-- `astype(float)` on one cell: parse a raw string (raising on failure,
with numpy's message), keep an already-converted float unchanged. -/
def cellFloat : Cell → Except String Cell
  | .num x => .ok (.num x)
  | .str s =>
    match parsePyFloat s with
    | some x => .ok (.num x)
    | none => .error ("could not convert string to float: " ++ s)

/-- Whether `astype(float)` succeeds on this cell. -/
def cellOk (c : Cell) : Bool :=
  match cellFloat c with
  | .ok _ => true
  | .error _ => false

/-- `df["value"].astype(float)` over the whole column: first unconvertible
cell raises. -/
def coerceValues : List Row → Except String (List Row)
  | [] => .ok []
  | r :: rs =>
    match cellFloat r.value with
    | .error e => .error e
    | .ok c =>
      match coerceValues rs with
      | .error e => .error e
      | .ok rest => .ok ({ r with value := c } :: rest)

/-! ### Date derivation and sorting (for `__clean_dataframe`) -/

/-- `pd.to_datetime(s, format = "%Y-%m", errors = "coerce")` on one string:
exactly four year digits, a dash, then a month `1..12` written with one or
two digits (CPython strptime's `%m`).  `none` is pandas `NaT`. -/
def parseYM (s : String) : Option (Nat × Nat) :=
  match s.toList with
  | y1 :: y2 :: y3 :: y4 :: '-' :: ms =>
    if ([y1, y2, y3, y4].all Char.isDigit ∧ isDigits ms ∧ ms ≠ [] ∧
        ms.length ≤ 2 ∧ 1 ≤ digitsToNat ms ∧ digitsToNat ms ≤ 12) then
      some (digitsToNat [y1, y2, y3, y4], digitsToNat ms)
    else none
  | _ => none

/-- `df["period"].str[1:]`: the period code with its first character
removed. -/
def dropFirst (s : String) : String := String.mk (s.toList.drop 1)

/-- The string handed to `to_datetime` for a row:
`df["year"].astype(str) + "-" + df["period"].str[1:]`. -/
def dateStr (r : Row) : String := r.year ++ "-" ++ dropFirst r.period

/-- `df["date"] = pd.to_datetime(...)` on one row. -/
def setDate (r : Row) : Row := { r with date := parseYM (dateStr r) }

/-- Ascending year-month order. -/
def ymLE (a b : Nat × Nat) : Bool :=
  decide (a.1 < b.1 ∨ (a.1 = b.1 ∧ a.2 ≤ b.2))

/-- Sort key order used by `sort_values(by := "date")`: ascending dates,
nulls (`NaT`) last. -/
def dateLE : Option (Nat × Nat) → Option (Nat × Nat) → Bool
  | none, none => true
  | none, some _ => false
  | some _, none => true
  | some a, some b => ymLE a b

def rowLE (a b : Row) : Bool := dateLE a.date b.date

/-- Insert an element into a sorted list, before the first element it
compares `le` to (so equal keys keep their relative order). -/
def insertSorted {α : Type} (le : α → α → Bool) (x : α) : List α → List α
  | [] => [x]
  | h :: t => if le x h then x :: h :: t else h :: insertSorted le x t

/-- `df.sort_values(by = "date")`: a stable ascending sort (insertion sort)
under the given key order. -/
def sort_values {α : Type} (le : α → α → Bool) (l : List α) : List α :=
  l.foldr (insertSorted le) []

/-- `APIbureau.__clean_dataframe`: derive the date column, sort ascending
by date (stable, nulls last), coerce the value column to float. -/
def clean_dataframe (df : List Row) : Except String (List Row) :=
  coerceValues (sort_values rowLE (df.map setDate))

/-! ### The writer (`__save_dataframe`) -/

/-- The pandas writer invoked: `to_excel`, or `to_csv` with a separator. -/
inductive WriteKind where
  | excel
  | csvSep (sep : String)
deriving DecidableEq

/-- Effects of `__save_dataframe`: the file writes performed (path, writer,
table) and the lines printed to standard output. -/
structure SaveResult where
  writes : List (String × WriteKind × List Row)
  stdout : List String
deriving DecidableEq

/-- `APIbureau.__save_dataframe`: dispatch on the format string; unknown
formats warn on stdout and fall back to `to_excel`. -/
def save_dataframe (df : List Row) (file_extension name : String) : SaveResult :=
  if file_extension = "xlsx" then ⟨[(name ++ ".xlsx", .excel, df)], []⟩
  else if file_extension = "csv" then ⟨[(name ++ ".csv", .csvSep ",", df)], []⟩
  else if file_extension = "txt" then ⟨[(name ++ ".txt", .csvSep ";", df)], []⟩
  else
    ⟨[(name ++ ".xlsx", .excel, df)],
      ["Unsupported format \x27" ++ file_extension ++ "\x27. Defaulting to \x27xlsx\x27."]⟩

/-! ### The request executor (`__generic_request`) -/

/-- The parts of an HTTP response that `__generic_request` inspects:
transport status code, payload `status`, payload `message`, and the rows
at `Results.series[0].data`. -/
structure ApiResponse where
  status_code : Nat
  status : String
  message : String
  data : List Row
deriving DecidableEq

/-- Result of `__generic_request`: the returned `(DataFrame, status_code)`
pair plus the diagnostics printed to standard output. -/
structure FetchOut where
  df : List Row
  status : Nat
  stdout : List String
deriving DecidableEq

/-- `APIbureau.__generic_request`, as a function of the response received:
HTTP 200 + `"REQUEST_SUCCEEDED"` returns the parsed rows; HTTP 200 with
any other payload status logs and returns an empty frame with 200; a
non-200 HTTP status logs and returns an empty frame with that status.
No path raises. -/
def generic_request (response : ApiResponse) : FetchOut :=
  if response.status_code = 200 then
    if response.status = "REQUEST_SUCCEEDED" then
      ⟨response.data, response.status_code, []⟩
    else
      ⟨[], response.status_code, ["Request failed:  " ++ response.message]⟩
  else
    ⟨[], response.status_code, ["HTTP error:  " ++ toString response.status_code]⟩

/-! ### The range splitter (`__single_series`)

The splitter calls `self.__generic_request` once per iteration; that call
is abstracted as a `fetch` function from `(ticker, start_year, end_year)`
to the `(DataFrame, status_code)` pair it returns.  The rows are generic
(`α`) so that theorems can instrument `fetch` to trace the issued windows;
each loop iteration is also recorded as `((start, end), returned rows)`. -/

/-- The `for _ in range(...)` loop body of `__single_series`, with the
remaining iteration count as fuel.  Per iteration (in source order): call
`__generic_request(start_year, end_year)`; raise `ValueError` if the frame
is empty with status 200; advance `start_year` by 10; append the frame.
`acc` is `list_df` (paired with the window that produced each entry) and
`last` the current value of the `status` variable. -/
def chunkLoop {α : Type} [DecidableEq α] (fetch : String → Int → Int → List α × Nat)
    (ticker : String) (end_year : Int) :
    Nat → Int → List ((Int × Int) × List α) → Nat →
    Except String (List ((Int × Int) × List α) × Nat)
  | 0, _, acc, last => .ok (acc, last)
  | n + 1, sy, acc, _ =>
    let r := fetch ticker sy end_year
    if r.1 = [] ∧ r.2 = 200 then .error "Empty Datarfame, not by bad Request"
    else chunkLoop fetch ticker end_year n (sy + 10) (acc ++ [((sy, end_year), r.1)]) r.2

/-- `APIbureau.__single_series`, instrumented with the issued windows.
For a span over 10 years it runs `int((end_year - start_year)/10) + 1`
loop iterations (the span is positive there, so Python's float-truncating
division is exact integer division); otherwise it issues the single
request directly.  Yields the list of `(window, rows)` pairs in call
order together with the final `status` value. -/
def single_series {α : Type} [DecidableEq α] (fetch : String → Int → Int → List α × Nat)
    (start_year end_year : Int) (ticker : String) :
    Except String (List ((Int × Int) × List α) × Nat) :=
  if end_year - start_year > 10 then
    chunkLoop fetch ticker end_year ((end_year - start_year).toNat / 10 + 1) start_year [] 0
  else
    let r := fetch ticker start_year end_year
    .ok ([((start_year, end_year), r.1)], r.2)

/-- The `(DataFrame, status)` value `__single_series` actually returns:
the concatenation (`pd.concat(list_df, ignore_index=True)`) of the
per-window frames — the single frame itself in the one-request branch —
and the status of the last request issued. -/
def single_series_df {α : Type} [DecidableEq α] (fetch : String → Int → Int → List α × Nat)
    (start_year end_year : Int) (ticker : String) : Except String (List α × Nat) :=
  (single_series fetch start_year end_year ticker).map fun p =>
    ((p.1.map (·.2)).flatten, p.2)

/-! ### The facade (`process_cpi_series`) -/

/-- Effects of one `process_cpi_series` run: the writer's effects and
whether `PlotSeries().plot_series_cpi(...).show()` was invoked. -/
structure RunEffects where
  saved : SaveResult
  plotted : Bool
deriving DecidableEq

/-- `APIbureau.process_cpi_series`: fetch the whole series through the
splitter, raise on an empty frame with status 200, clean, save, and
optionally plot.  An `Except.error` result models the `ValueError`
escaping before any file write or plot. -/
def process_cpi_series (fetch : String → Int → Int → List Row × Nat)
    (start_year end_year : Int) (ticker output_filename _plot_title : String)
    (format : String) (plot : Bool) : Except String RunEffects :=
  match single_series_df fetch start_year end_year ticker with
  | .error e => .error e
  | .ok (df, status) =>
    if df = [] ∧ status = 200 then .error "Empty Datarfame, not by bad Request"
    else
      match clean_dataframe df with
      | .error e => .error e
      | .ok df2 => .ok ⟨save_dataframe df2 format output_filename, plot⟩

/-- The `(window, rows)` entry produced by the splitter loop's `i`-th
iteration when started at `sy` (the window end is always the fixed
`end_year` — nothing in the source caps it). -/
def windowEntry {α : Type} (fetch : String → Int → Int → List α × Nat)
    (ticker : String) (e sy : Int) (i : Nat) : (Int × Int) × List α :=
  ((sy + 10 * (i : Int), e), (fetch ticker (sy + 10 * (i : Int)) e).1)

/-! ## Lemmas about the stable sort -/

theorem insertSorted_perm {α : Type} (le : α → α → Bool) (x : α) :
    ∀ l : List α, List.Perm (insertSorted le x l) (x :: l)
  | [] => List.Perm.refl [x]
  | h :: t => by
    rw [insertSorted]
    by_cases hc : le x h
    · rw [if_pos hc]
    · rw [if_neg hc]
      exact ((insertSorted_perm le x t).cons h).trans (List.Perm.swap x h t)

theorem sort_values_perm {α : Type} (le : α → α → Bool) :
    ∀ l : List α, List.Perm (sort_values le l) l
  | [] => List.Perm.refl []
  | h :: t =>
    (insertSorted_perm le h (sort_values le t)).trans ((sort_values_perm le t).cons h)

theorem mem_insertSorted {α : Type} (le : α → α → Bool) (x y : α) (l : List α)
    (h : y ∈ insertSorted le x l) : y = x ∨ y ∈ l :=
  List.mem_cons.mp ((insertSorted_perm le x l).mem_iff.mp h)

theorem insertSorted_pairwise {α : Type} (le : α → α → Bool)
    (trans : ∀ a b c, le a b → le b c → le a c)
    (total : ∀ a b, le a b ∨ le b a) (x : α) :
    ∀ l : List α, l.Pairwise (le · ·) → (insertSorted le x l).Pairwise (le · ·)
  | [], _ => List.Pairwise.cons (by simp) List.Pairwise.nil
  | h :: t, hp => by
    rw [insertSorted]
    rcases List.pairwise_cons.mp hp with ⟨hhead, htail⟩
    by_cases hc : le x h
    · rw [if_pos hc]
      refine List.pairwise_cons.mpr ⟨?_, hp⟩
      intro y hy
      rcases List.mem_cons.mp hy with rfl | hy'
      · exact hc
      · exact trans x h y hc (hhead y hy')
    · rw [if_neg hc]
      refine List.pairwise_cons.mpr
        ⟨?_, insertSorted_pairwise le trans total x t htail⟩
      intro y hy
      rcases mem_insertSorted le x y t hy with heq | hy'
      · rw [heq]
        rcases total x h with h1 | h2
        · exact absurd h1 hc
        · exact h2
      · exact hhead y hy'

theorem sort_values_pairwise {α : Type} (le : α → α → Bool)
    (trans : ∀ a b c, le a b → le b c → le a c)
    (total : ∀ a b, le a b ∨ le b a) :
    ∀ l : List α, (sort_values le l).Pairwise (le · ·)
  | [] => List.Pairwise.nil
  | h :: t =>
    insertSorted_pairwise le trans total h _ (sort_values_pairwise le trans total t)

theorem sort_values_of_sorted {α : Type} (le : α → α → Bool) :
    ∀ l : List α, l.Pairwise (le · ·) → sort_values le l = l
  | [], _ => rfl
  | h :: t, hp => by
    rcases List.pairwise_cons.mp hp with ⟨hhead, htail⟩
    show insertSorted le h (sort_values le t) = h :: t
    rw [sort_values_of_sorted le t htail]
    cases t with
    | nil => rfl
    | cons h2 t2 =>
      rw [insertSorted, if_pos (hhead h2 (List.mem_cons_self h2 t2))]

/-! ## Loop lemmas for the range splitter -/

/-- Every `(window, rows)` entry the splitter loop adds came from a fetch
whose end year is the loop's fixed `end_year`, returned exactly those
rows, and did not trigger the empty-with-200 `ValueError`. -/
theorem chunkLoop_ok_mem {α : Type} [DecidableEq α]
    (fetch : String → Int → Int → List α × Nat) (ticker : String) (e : Int) :
    ∀ (n : Nat) (sy : Int) (acc : List ((Int × Int) × List α)) (last : Nat)
      (tr : List ((Int × Int) × List α)) (st : Nat),
      chunkLoop fetch ticker e n sy acc last = .ok (tr, st) →
      ∀ x ∈ tr, x ∈ acc ∨
        (x.1.2 = e ∧ x.2 = (fetch ticker x.1.1 e).1 ∧
          ¬((fetch ticker x.1.1 e).1 = [] ∧ (fetch ticker x.1.1 e).2 = 200))
  | 0, sy, acc, last, tr, st, h, x, hx => by
    simp only [chunkLoop, Except.ok.injEq, Prod.mk.injEq] at h
    exact Or.inl (h.1 ▸ hx)
  | n + 1, sy, acc, last, tr, st, h, x, hx => by
    rw [chunkLoop] at h
    by_cases hc : (fetch ticker sy e).1 = [] ∧ (fetch ticker sy e).2 = 200
    · rw [if_pos hc] at h
      exact Except.noConfusion h
    · simp only [if_neg hc] at h
      rcases chunkLoop_ok_mem fetch ticker e n (sy + 10)
          (acc ++ [((sy, e), (fetch ticker sy e).1)]) (fetch ticker sy e).2 tr st h x hx with
        h1 | h2
      · rcases List.mem_append.mp h1 with h3 | h4
        · exact Or.inl h3
        · have hx4 : x = ((sy, e), (fetch ticker sy e).1) := by simpa using h4
          subst hx4
          exact Or.inr ⟨rfl, rfl, hc⟩
      · exact Or.inr h2

theorem windowEntry_zero {α : Type} (fetch : String → Int → Int → List α × Nat)
    (ticker : String) (e sy : Int) :
    windowEntry fetch ticker e sy 0 = ((sy, e), (fetch ticker sy e).1) := by
  simp [windowEntry]

theorem windowEntry_shift {α : Type} (fetch : String → Int → Int → List α × Nat)
    (ticker : String) (e sy : Int) (i : Nat) :
    windowEntry fetch ticker e (sy + 10) i = windowEntry fetch ticker e sy (i + 1) := by
  unfold windowEntry
  rw [show sy + 10 + 10 * (i : Int) = sy + 10 * ((i + 1 : Nat) : Int) by push_cast; ring]

/-- If the splitter loop reaches an iteration whose fetch returns an
empty frame with status 200 — all earlier iterations not having
triggered the check — the loop raises the data-integrity `ValueError`
then and there. -/
theorem chunkLoop_error {α : Type} [DecidableEq α]
    (fetch : String → Int → Int → List α × Nat) (ticker : String) (e : Int) :
    ∀ (k n : Nat) (sy : Int) (acc : List ((Int × Int) × List α)) (last : Nat),
      k < n →
      (∀ i : Nat, i < k →
        ¬((fetch ticker (sy + 10 * (i : Int)) e).1 = [] ∧
          (fetch ticker (sy + 10 * (i : Int)) e).2 = 200)) →
      (fetch ticker (sy + 10 * (k : Int)) e).1 = [] →
      (fetch ticker (sy + 10 * (k : Int)) e).2 = 200 →
      chunkLoop fetch ticker e n sy acc last =
        .error "Empty Datarfame, not by bad Request"
  | 0, n, sy, acc, last, hkn, _, hdf, hst => by
    obtain ⟨m, rfl⟩ : ∃ m, n = m + 1 := ⟨n - 1, by omega⟩
    simp only [Nat.cast_zero, mul_zero, add_zero] at hdf hst
    rw [chunkLoop, if_pos ⟨hdf, hst⟩]
  | k + 1, n, sy, acc, last, hkn, hpre, hdf, hst => by
    obtain ⟨m, rfl⟩ : ∃ m, n = m + 1 := ⟨n - 1, by omega⟩
    have hc0 := hpre 0 (Nat.succ_pos k)
    simp only [Nat.cast_zero, mul_zero, add_zero] at hc0
    rw [chunkLoop, if_neg hc0]
    have harith : ∀ j : Nat, sy + 10 + 10 * (j : Int) = sy + 10 * ((j + 1 : Nat) : Int) := by
      intro j; push_cast; ring
    exact chunkLoop_error fetch ticker e k m (sy + 10) _ _
      (by omega)
      (fun i hi => by rw [harith i]; exact hpre (i + 1) (by omega))
      (by rw [harith k]; exact hdf)
      (by rw [harith k]; exact hst)

/-- Closed form of the splitter loop when no iteration triggers the
empty-with-200 `ValueError`: running `m + 1` iterations from `sy` appends
one entry per `i < m + 1` for the window `(sy + 10 i, end_year)` and ends
with the status of the final (`i = m`) fetch. -/
theorem chunkLoop_closed {α : Type} [DecidableEq α]
    (fetch : String → Int → Int → List α × Nat) (ticker : String) (e : Int) :
    ∀ (m : Nat) (sy : Int) (acc : List ((Int × Int) × List α)) (last : Nat),
      (∀ i : Nat, i ≤ m →
        ¬((fetch ticker (sy + 10 * (i : Int)) e).1 = [] ∧
          (fetch ticker (sy + 10 * (i : Int)) e).2 = 200)) →
      chunkLoop fetch ticker e (m + 1) sy acc last =
        .ok (acc ++ (List.range (m + 1)).map (windowEntry fetch ticker e sy),
          (fetch ticker (sy + 10 * (m : Int)) e).2)
  | 0, sy, acc, last, h => by
    have hc := h 0 (Nat.le_refl 0)
    simp only [Nat.cast_zero, mul_zero, add_zero] at hc ⊢
    rw [chunkLoop, if_neg hc, chunkLoop]
    simp [List.range_succ, windowEntry]
  | m + 1, sy, acc, last, h => by
    have hc := h 0 (Nat.zero_le _)
    simp only [Nat.cast_zero, mul_zero, add_zero] at hc
    rw [chunkLoop, if_neg hc]
    have IH := chunkLoop_closed fetch ticker e m (sy + 10)
      (acc ++ [((sy, e), (fetch ticker sy e).1)]) (fetch ticker sy e).2
      (fun i hi => by
        have hhit := h (i + 1) (by omega)
        have harith : sy + 10 * ((i + 1 : Nat) : Int) = sy + 10 + 10 * (i : Int) := by
          push_cast; ring
        rwa [harith] at hhit)
    rw [IH]
    have harith2 : sy + 10 + 10 * (m : Int) = sy + 10 * ((m + 1 : Nat) : Int) := by
      push_cast; ring
    rw [harith2]
    have h1 : (List.range (m + 1)).map (windowEntry fetch ticker e (sy + 10)) =
        (List.range (m + 1)).map (fun i => windowEntry fetch ticker e sy (i + 1)) :=
      List.map_congr_left fun i _ => windowEntry_shift fetch ticker e sy i
    have h2 : (List.range (m + 1 + 1)).map (windowEntry fetch ticker e sy) =
        windowEntry fetch ticker e sy 0 ::
          (List.range (m + 1)).map (fun i => windowEntry fetch ticker e sy (i + 1)) := by
      rw [List.range_succ_eq_map, List.map_cons, List.map_map]
      rfl
    rw [h1, h2, windowEntry_zero]
    simp [List.append_assoc]

/-! ## Lemmas about the cleaner -/

theorem dateLE_trans (a b c : Option (Nat × Nat))
    (h1 : dateLE a b) (h2 : dateLE b c) : dateLE a c := by
  rcases a with _ | ⟨a1, a2⟩ <;> rcases b with _ | ⟨b1, b2⟩ <;>
    rcases c with _ | ⟨c1, c2⟩ <;> simp_all [dateLE, ymLE] <;> omega

theorem dateLE_total (a b : Option (Nat × Nat)) : dateLE a b ∨ dateLE b a := by
  rcases a with _ | ⟨a1, a2⟩ <;> rcases b with _ | ⟨b1, b2⟩ <;>
    simp_all [dateLE, ymLE] <;> omega

theorem dateLE_none_left (d : Option (Nat × Nat)) (h : dateLE none d) : d = none := by
  rcases d with _ | ⟨d1, d2⟩ <;> simp_all [dateLE]

theorem rowLE_trans (a b c : Row) (h1 : rowLE a b) (h2 : rowLE b c) : rowLE a c :=
  dateLE_trans a.date b.date c.date h1 h2

theorem rowLE_total (a b : Row) : rowLE a b ∨ rowLE b a :=
  dateLE_total a.date b.date

/-- Row-wise content of a successful `astype(float)`: everything except
the value is unchanged, and the value is the converted cell. -/
def coerced (r rc : Row) : Prop :=
  rc.year = r.year ∧ rc.period = r.period ∧ rc.date = r.date ∧
    cellFloat r.value = .ok rc.value

theorem coerceValues_forall₂ :
    ∀ l lc : List Row, coerceValues l = .ok lc → List.Forall₂ coerced l lc
  | [], lc, h => by
    simp only [coerceValues, Except.ok.injEq] at h
    exact h ▸ .nil
  | r :: rs, lc, h => by
    rw [coerceValues] at h
    cases hcf : cellFloat r.value with
    | error e => rw [hcf] at h; exact Except.noConfusion h
    | ok c =>
      rw [hcf] at h
      cases hcv : coerceValues rs with
      | error e => rw [hcv] at h; exact Except.noConfusion h
      | ok rest =>
        rw [hcv] at h
        cases h
        exact .cons ⟨rfl, rfl, rfl, hcf⟩ (coerceValues_forall₂ rs rest hcv)

theorem cellFloat_ok_num (c cc : Cell) (h : cellFloat c = .ok cc) :
    ∃ x, cc = .num x := by
  cases c with
  | num x => cases h; exact ⟨x, rfl⟩
  | str s =>
    rw [cellFloat] at h
    cases hps : parsePyFloat s with
    | none => rw [hps] at h; exact Except.noConfusion h
    | some x => rw [hps] at h; cases h; exact ⟨x, rfl⟩

/-- Converting an already converted column is the identity. -/
theorem coerceValues_fix :
    ∀ l lc : List Row, List.Forall₂ coerced l lc → coerceValues lc = .ok lc
  | _, [], .nil => rfl
  | r :: rs, rc :: rest, .cons hc hrest => by
    obtain ⟨x, hx⟩ := cellFloat_ok_num r.value rc.value hc.2.2.2
    have hval : cellFloat rc.value = .ok rc.value := by rw [hx]; rfl
    rw [coerceValues, hval, coerceValues_fix rs rest hrest]

/-- Right-hand members of a `Forall₂` come from related left-hand ones. -/
theorem forall₂_mem_right {R : Row → Row → Prop} :
    ∀ {l lc : List Row} {y : Row}, List.Forall₂ R l lc → y ∈ lc →
      ∃ z, z ∈ l ∧ R z y
  | [], [], y, .nil, hy => absurd hy (List.not_mem_nil y)
  | a :: as, b :: bs, y, .cons hab hrest, hy => by
    rcases List.mem_cons.mp hy with heq | hy'
    · exact ⟨a, List.mem_cons_self a as, heq ▸ hab⟩
    · obtain ⟨z, hz, hR⟩ := forall₂_mem_right hrest hy'
      exact ⟨z, List.mem_cons_of_mem a hz, hR⟩

/-- Value conversion preserves sortedness (it keeps every date). -/
theorem forall₂_pairwise :
    ∀ {l lc : List Row}, List.Forall₂ coerced l lc →
      l.Pairwise (rowLE · ·) → lc.Pairwise (rowLE · ·)
  | _, _, .nil, _ => .nil
  | a :: as, b :: bs, .cons hab hrest, hp => by
    rcases List.pairwise_cons.mp hp with ⟨hhead, htail⟩
    refine List.pairwise_cons.mpr ⟨?_, forall₂_pairwise hrest htail⟩
    intro y hy
    obtain ⟨z, hz, hcz⟩ := forall₂_mem_right hrest hy
    have hzz : rowLE a z := hhead z hz
    show dateLE b.date y.date
    rw [hab.2.2.1, hcz.2.2.1]
    exact hzz

/-- Value conversion preserves the `(year, period)` view of every row. -/
theorem forall₂_map_yp :
    ∀ {l lc : List Row}, List.Forall₂ coerced l lc →
      lc.map (fun r => (r.year, r.period)) = l.map (fun r => (r.year, r.period))
  | _, _, .nil => rfl
  | a :: as, b :: bs, .cons hab hrest => by
    simp only [List.map_cons, forall₂_map_yp hrest, hab.1, hab.2.1]

/-- A successful column conversion is exactly one with every cell
convertible. -/
theorem coerceValues_isOk (l : List Row) :
    (∃ lc, coerceValues l = .ok lc) ↔ ∀ r ∈ l, cellOk r.value = true := by
  induction l with
  | nil => simp [coerceValues]
  | cons r rs ih =>
    constructor
    · rintro ⟨lc, hlc⟩ y hy
      rw [coerceValues] at hlc
      cases hcf : cellFloat r.value with
      | error e => rw [hcf] at hlc; exact Except.noConfusion hlc
      | ok c =>
        rw [hcf] at hlc
        cases hcv : coerceValues rs with
        | error e => rw [hcv] at hlc; exact Except.noConfusion hlc
        | ok rest =>
          rcases List.mem_cons.mp hy with heq | hy'
          · rw [heq, cellOk, hcf]
          · exact (ih.mp ⟨rest, hcv⟩) y hy'
    · intro hall
      have h1 : cellOk r.value = true := hall r (List.mem_cons_self r rs)
      obtain ⟨rest, hrest⟩ := ih.mpr fun y hy => hall y (List.mem_cons_of_mem r hy)
      rw [coerceValues]
      cases hcf : cellFloat r.value with
      | error e => rw [cellOk, hcf] at h1; exact Bool.noConfusion h1
      | ok c =>
        rw [hrest]
        exact ⟨_, rfl⟩

/-- `cellOk` over the sorted, dated frame is `cellOk` over the input frame
(dating changes no value, sorting only permutes). -/
theorem cellOk_sorted_iff (df : List Row) :
    (∀ r ∈ sort_values rowLE (df.map setDate), cellOk r.value = true) ↔
      ∀ r ∈ df, cellOk r.value = true := by
  constructor
  · intro h y hy
    have hmem : setDate y ∈ sort_values rowLE (df.map setDate) :=
      (sort_values_perm rowLE (df.map setDate)).mem_iff.mpr
        (List.mem_map_of_mem setDate hy)
    exact h (setDate y) hmem
  · intro h r hr
    have hmem : r ∈ df.map setDate :=
      (sort_values_perm rowLE (df.map setDate)).mem_iff.mp hr
    obtain ⟨y, hy, rfl⟩ := List.mem_map.mp hmem
    exact h y hy

/-- Every row of a successful clean carries the date recomputed from its
own year and period fields. -/
theorem clean_out_dates (df out : List Row) (h : clean_dataframe df = .ok out) :
    ∀ r ∈ out, r.date = parseYM (dateStr r) := by
  intro r hr
  have hfa := coerceValues_forall₂ _ _ h
  obtain ⟨z, hz, hcz⟩ := forall₂_mem_right hfa hr
  have hzmap : z ∈ df.map setDate :=
    (sort_values_perm rowLE (df.map setDate)).mem_iff.mp hz
  obtain ⟨y, _, rfl⟩ := List.mem_map.mp hzmap
  have hds : dateStr r = dateStr (setDate y) := by
    unfold dateStr
    rw [hcz.1, hcz.2.1]
  rw [hcz.2.2.1, hds]
  rfl

/-- The rows of a successful clean are pairwise ordered by date. -/
theorem clean_out_pairwise (df out : List Row) (h : clean_dataframe df = .ok out) :
    out.Pairwise (rowLE · ·) :=
  forall₂_pairwise (coerceValues_forall₂ _ _ h)
    (sort_values_pairwise rowLE rowLE_trans rowLE_total (df.map setDate))

/-- Cleaning drops no row: the `(year, period)` views of output and input
are permutations of each other. -/
theorem clean_out_perm_yp (df out : List Row) (h : clean_dataframe df = .ok out) :
    List.Perm (out.map fun r => (r.year, r.period))
      (df.map fun r => (r.year, r.period)) := by
  rw [forall₂_map_yp (coerceValues_forall₂ _ _ h)]
  have hperm :=
    (sort_values_perm rowLE (df.map setDate)).map (fun r => (r.year, r.period))
  rw [List.map_map] at hperm
  exact hperm

/-! ## Theorems -/

/-- C1: for a span over 10 years, `__single_series` is claimed to
partition the span into `⌈span/10⌉` consecutive non-overlapping windows
of at most 10 years.  Evaluating the embedded code on
`start_year = 2000, end_year = 2020` (with `fetch` instrumented to
return its own window) shows the code instead issues
`int(span/10) + 1 = 3` requests whose end is always the full
`end_year = 2020`: windows `(2000, 2020), (2010, 2020), (2020, 2020)` —
overlapping, the first covering the entire 20-year span, and one more
request than the claimed `⌈20/10⌉ = 2`.  The loop advances `start_year`
by 10 but never caps the per-request end year, contradicting the
function's own docstring ("dividing the request into smaller chunks"). -/
theorem single_series_windows_overlap_eval :
    single_series (α := Int × Int) (fun _ s e => ([(s, e)], 200)) 2000 2020 "CUSR0000SAM" =
      .ok ([((2000, 2020), [(2000, 2020)]),
            ((2010, 2020), [(2010, 2020)]),
            ((2020, 2020), [(2020, 2020)])], 200) ∧
    ((2020 - 2000 : Int).toNat + 10 - 1) / 10 = 2 := by
  exact ⟨by rfl, by rfl⟩

/-- C2: for `end_year - start_year ≤ 10`, `__single_series` issues exactly
one request, for the whole `[start_year, end_year]` span, and returns that
request's frame and status unchanged. -/
theorem single_series_small_span {α : Type} [DecidableEq α]
    (fetch : String → Int → Int → List α × Nat) (start_year end_year : Int)
    (ticker : String) (h : end_year - start_year ≤ 10) :
    single_series fetch start_year end_year ticker =
      .ok ([((start_year, end_year), (fetch ticker start_year end_year).1)],
        (fetch ticker start_year end_year).2) ∧
    single_series_df fetch start_year end_year ticker =
      .ok (fetch ticker start_year end_year) := by
  have hn : ¬ (end_year - start_year > 10) := by omega
  refine ⟨by simp [single_series, hn], ?_⟩
  simp [single_series_df, single_series, hn, Except.map]

/-- Witness for C2 at a concrete 5-year call. -/
theorem single_series_small_span_witness :
    single_series (α := Nat) (fun _ _ _ => ([7], 200)) 2000 2005 "CUSR0000SAM" =
      .ok ([((2000, 2005), [7])], 200) ∧
    single_series_df (α := Nat) (fun _ _ _ => ([7], 200)) 2000 2005 "CUSR0000SAM" =
      .ok ([7], 200) :=
  single_series_small_span (fun _ _ _ => ([7], 200)) 2000 2005 "CUSR0000SAM" (by decide)

/-- C4: `__generic_request` maps the received response into exactly one of
three outcomes: HTTP 200 with upstream status `REQUEST_SUCCEEDED` returns
the parsed rows with status 200 and no diagnostics; HTTP 200 with any
other upstream status returns an empty frame with status 200 after
logging; non-200 HTTP returns an empty frame with that HTTP status after
logging.  The function is total, so no path raises. -/
theorem generic_request_outcomes (response : ApiResponse) :
    (response.status_code = 200 → response.status = "REQUEST_SUCCEEDED" →
      generic_request response = ⟨response.data, 200, []⟩) ∧
    (response.status_code = 200 → response.status ≠ "REQUEST_SUCCEEDED" →
      (generic_request response).df = [] ∧ (generic_request response).status = 200 ∧
      (generic_request response).stdout ≠ []) ∧
    (response.status_code ≠ 200 →
      (generic_request response).df = [] ∧
      (generic_request response).status = response.status_code ∧
      (generic_request response).stdout ≠ []) := by
  refine ⟨fun h1 h2 => ?_, fun h1 h2 => ?_, fun h1 => ?_⟩ <;>
    simp [generic_request, *]

/-- Witness for C4: one concrete response per outcome. -/
theorem generic_request_outcomes_witness :
    generic_request ⟨200, "REQUEST_SUCCEEDED", "", [⟨"2000", "M01", .str "1", none⟩]⟩ =
      ⟨[⟨"2000", "M01", .str "1", none⟩], 200, []⟩ ∧
    ((generic_request ⟨200, "REQUEST_NOT_PROCESSED", "bad series", []⟩).df = [] ∧
      (generic_request ⟨200, "REQUEST_NOT_PROCESSED", "bad series", []⟩).status = 200 ∧
      (generic_request ⟨200, "REQUEST_NOT_PROCESSED", "bad series", []⟩).stdout ≠ []) ∧
    ((generic_request ⟨500, "", "", []⟩).df = [] ∧
      (generic_request ⟨500, "", "", []⟩).status = 500 ∧
      (generic_request ⟨500, "", "", []⟩).stdout ≠ []) :=
  ⟨(generic_request_outcomes ⟨200, "REQUEST_SUCCEEDED", "", [⟨"2000", "M01", .str "1", none⟩]⟩).1
      rfl rfl,
    (generic_request_outcomes ⟨200, "REQUEST_NOT_PROCESSED", "bad series", []⟩).2.1
      rfl (by decide),
    (generic_request_outcomes ⟨500, "", "", []⟩).2.2 (by decide)⟩

/-- C8: `__save_dataframe` writes `{name}.xlsx` via `to_excel` for
`"xlsx"`, `{name}.csv` via `to_csv` for `"csv"`, `{name}.txt` via
`to_csv(sep = ";")` for `"txt"`, and for any unrecognized format string
prints a warning and falls back to writing `{name}.xlsx` via `to_excel`.
The dispatch is total: no format string raises. -/
theorem save_dataframe_dispatch (df : List Row) (file_extension name : String) :
    (file_extension = "xlsx" →
      save_dataframe df file_extension name = ⟨[(name ++ ".xlsx", .excel, df)], []⟩) ∧
    (file_extension = "csv" →
      save_dataframe df file_extension name = ⟨[(name ++ ".csv", .csvSep ",", df)], []⟩) ∧
    (file_extension = "txt" →
      save_dataframe df file_extension name = ⟨[(name ++ ".txt", .csvSep ";", df)], []⟩) ∧
    (file_extension ≠ "xlsx" → file_extension ≠ "csv" → file_extension ≠ "txt" →
      (save_dataframe df file_extension name).writes = [(name ++ ".xlsx", .excel, df)] ∧
      (save_dataframe df file_extension name).stdout ≠ []) := by
  refine ⟨fun h => ?_, fun h => ?_, fun h => ?_, fun h1 h2 h3 => ?_⟩ <;>
    simp [save_dataframe, *]

/-- Witness for C8: the unsupported format `"json"` writes `X.xlsx` with a
warning (and `"txt"` writes `X.txt` with the semicolon separator). -/
theorem save_dataframe_dispatch_witness :
    ((save_dataframe [] "json" "X").writes = [("X.xlsx", .excel, [])] ∧
      (save_dataframe [] "json" "X").stdout ≠ []) ∧
    save_dataframe [] "txt" "X" = ⟨[("X.txt", .csvSep ";", [])], []⟩ :=
  ⟨(save_dataframe_dispatch [] "json" "X").2.2.2 (by decide) (by decide) (by decide),
    (save_dataframe_dispatch [] "txt" "X").2.2.1 rfl⟩

/-- C3: a Request Executor call returning an empty frame together with
HTTP status 200 makes the operation raise the data-integrity `ValueError`
rather than return silently.  Part one (per window, inside the splitter
loop): for a span over 10 years, if the loop reaches window `k` (no
earlier window having triggered the check) and window `k`'s fetch returns
an empty frame with status 200, `__single_series` raises — it returns the
error, not a frame.  Part two (whole series, inside the facade): a series
result that is empty with status 200 makes `process_cpi_series` raise;
the `Except.error` result carries no effects, so the error precedes any
cleaning, file write, or plot. -/
theorem empty_success_raises
    (fetch : String → Int → Int → List Row × Nat) (start_year end_year : Int)
    (ticker output_filename plot_title format : String) (plot : Bool) (k : Nat) :
    (end_year - start_year > 10 →
      k ≤ (end_year - start_year).toNat / 10 →
      (∀ i : Nat, i < k →
        ¬((fetch ticker (start_year + 10 * (i : Int)) end_year).1 = [] ∧
          (fetch ticker (start_year + 10 * (i : Int)) end_year).2 = 200)) →
      (fetch ticker (start_year + 10 * (k : Int)) end_year).1 = [] →
      (fetch ticker (start_year + 10 * (k : Int)) end_year).2 = 200 →
      single_series fetch start_year end_year ticker =
          .error "Empty Datarfame, not by bad Request" ∧
        single_series_df fetch start_year end_year ticker =
          .error "Empty Datarfame, not by bad Request") ∧
    (single_series_df fetch start_year end_year ticker = .ok ([], 200) →
      process_cpi_series fetch start_year end_year ticker output_filename plot_title
          format plot =
        .error "Empty Datarfame, not by bad Request") := by
  constructor
  · intro hspan hk hpre hdf hst
    have herr : single_series fetch start_year end_year ticker =
        .error "Empty Datarfame, not by bad Request" := by
      rw [single_series, if_pos hspan]
      exact chunkLoop_error fetch ticker end_year k _ start_year [] 0 (by omega)
        hpre hdf hst
    refine ⟨herr, ?_⟩
    unfold single_series_df
    rw [herr]
    rfl
  · intro hdf
    rw [process_cpi_series, hdf]
    simp

/-- Witness for C3: on the 23-year span 2000–2023, a fetch whose second
window (2010) returns an empty frame with status 200 makes the splitter
raise mid-loop; and a fetch that yields an empty whole-series result with
200 on a short span makes the facade raise. -/
theorem empty_success_raises_witness :
    (single_series
          (fun _ s _ => if s = 2010 then ([], 200)
            else ([(⟨"2000", "M01", .str "1", none⟩ : Row)], 200))
          2000 2023 "CUSR0000SAM" =
        .error "Empty Datarfame, not by bad Request" ∧
      single_series_df
          (fun _ s _ => if s = 2010 then ([], 200)
            else ([(⟨"2000", "M01", .str "1", none⟩ : Row)], 200))
          2000 2023 "CUSR0000SAM" =
        .error "Empty Datarfame, not by bad Request") ∧
    process_cpi_series (fun _ _ _ => ([], 200)) 2000 2005 "CUSR0000SAM" "OUT" "T"
        "xlsx" false =
      .error "Empty Datarfame, not by bad Request" :=
  ⟨(empty_success_raises
      (fun _ s _ => if s = 2010 then ([], 200)
        else ([(⟨"2000", "M01", .str "1", none⟩ : Row)], 200))
      2000 2023 "CUSR0000SAM" "OUT" "T" "xlsx" false 1).1
      (by decide) (by decide) (by decide) (by decide) (by decide),
    (empty_success_raises (fun _ _ _ => ([], 200)) 2000 2005 "CUSR0000SAM" "OUT"
      "T" "xlsx" false 0).2 rfl⟩

/-- C10: for a span over 10 years in which a non-final window's request
fails (empty frame, non-200 status) while no window returns empty-with-200,
the splitter neither raises nor records the failure: the empty frame is
concatenated with the rest, the returned status is that of the final
window only, and — provided the overall concatenation is non-empty and
cleans successfully — the facade's empty-plus-200 guard passes and the
partially missing series is cleaned and written to the output file
without any error. -/
theorem partial_window_failure_silent
    (fetch : String → Int → Int → List Row × Nat) (start_year end_year : Int)
    (ticker output_filename plot_title format : String) (plot : Bool) (m : Nat)
    (hspan : end_year - start_year > 10)
    (hm : (end_year - start_year).toNat / 10 = m)
    (hok : ∀ i : Nat, i ≤ m →
      ¬((fetch ticker (start_year + 10 * (i : Int)) end_year).1 = [] ∧
        (fetch ticker (start_year + 10 * (i : Int)) end_year).2 = 200))
    (hfail : ∃ i : Nat, i < m ∧
      (fetch ticker (start_year + 10 * (i : Int)) end_year).1 = [] ∧
      (fetch ticker (start_year + 10 * (i : Int)) end_year).2 ≠ 200)
    (hne : ((List.range (m + 1)).map
        (fun (i : Nat) => (fetch ticker (start_year + 10 * (i : Int)) end_year).1)).flatten ≠ [])
    (df2 : List Row)
    (hclean : clean_dataframe (((List.range (m + 1)).map
        (fun (i : Nat) => (fetch ticker (start_year + 10 * (i : Int)) end_year).1)).flatten) =
      .ok df2) :
    single_series_df fetch start_year end_year ticker =
      .ok (((List.range (m + 1)).map
          (fun (i : Nat) => (fetch ticker (start_year + 10 * (i : Int)) end_year).1)).flatten,
        (fetch ticker (start_year + 10 * (m : Int)) end_year).2) ∧
    process_cpi_series fetch start_year end_year ticker output_filename plot_title
        format plot =
      .ok ⟨save_dataframe df2 format output_filename, plot⟩ := by
  have hdf : single_series_df fetch start_year end_year ticker =
      .ok (((List.range (m + 1)).map
          (fun (i : Nat) => (fetch ticker (start_year + 10 * (i : Int)) end_year).1)).flatten,
        (fetch ticker (start_year + 10 * (m : Int)) end_year).2) := by
    rw [single_series_df, single_series, if_pos hspan, hm,
      chunkLoop_closed fetch ticker end_year m start_year [] 0 hok]
    simp only [Except.map, List.nil_append, List.map_map]
    rfl
  refine ⟨hdf, ?_⟩
  rw [process_cpi_series, hdf]
  simp [hne, hclean]

/-- Witness for C10: span 2000–2023 (three windows), the middle window
returns an empty frame with HTTP 500; the result is silently the other
windows' rows with status 200, and the facade cleans and writes it. -/
theorem partial_window_failure_silent_witness :
    single_series_df
        (fun _ s _ => if s = 2010 then ([], 500)
          else ([(⟨"2000", "M01", .str "1", none⟩ : Row)], 200))
        2000 2023 "CUSR0000SAM" =
      .ok ([⟨"2000", "M01", .str "1", none⟩, ⟨"2000", "M01", .str "1", none⟩], 200) ∧
    process_cpi_series
        (fun _ s _ => if s = 2010 then ([], 500)
          else ([(⟨"2000", "M01", .str "1", none⟩ : Row)], 200))
        2000 2023 "CUSR0000SAM" "OUT" "T" "xlsx" false =
      .ok ⟨save_dataframe
          [⟨"2000", "M01", .num (.num 1 0), some (2000, 1)⟩,
            ⟨"2000", "M01", .num (.num 1 0), some (2000, 1)⟩] "xlsx" "OUT", false⟩ :=
  partial_window_failure_silent
    (fun _ s _ => if s = 2010 then ([], 500)
      else ([(⟨"2000", "M01", .str "1", none⟩ : Row)], 200))
    2000 2023 "CUSR0000SAM" "OUT" "T" "xlsx" false 2
    (by decide) (by decide) (by decide) ⟨1, by decide⟩ (by decide)
    [⟨"2000", "M01", .num (.num 1 0), some (2000, 1)⟩,
      ⟨"2000", "M01", .num (.num 1 0), some (2000, 1)⟩] (by decide)

/-- C5: `__clean_dataframe` is idempotent — if cleaning a frame succeeds,
cleaning the result again succeeds and returns the very same frame (same
rows, same order, same values).  The second pass recomputes the same
dates from the unchanged year/period fields, re-sorting an already sorted
frame is the identity, and converting an already converted value column
is the identity. -/
theorem clean_dataframe_idempotent (df out : List Row)
    (h : clean_dataframe df = .ok out) :
    clean_dataframe out = .ok out := by
  have hfa := coerceValues_forall₂ _ _ h
  have hdates := clean_out_dates df out h
  have hsetd : ∀ r ∈ out, setDate r = r := by
    intro r hr
    unfold setDate
    rw [← hdates r hr]
  have hmap : out.map setDate = out := by
    rw [List.map_congr_left hsetd, List.map_id']
  have hsort : sort_values rowLE out = out :=
    sort_values_of_sorted rowLE out (clean_out_pairwise df out h)
  show coerceValues (sort_values rowLE (out.map setDate)) = .ok out
  rw [hmap, hsort]
  exact coerceValues_fix _ _ hfa

/-- Witness for C5 at a concrete two-row frame (one annual-average `M13`
row whose date is null). -/
theorem clean_dataframe_idempotent_witness :
    clean_dataframe
        [⟨"2000", "M13", .str "1.5", none⟩, ⟨"2000", "M01", .str "2", none⟩] =
      .ok [⟨"2000", "M01", .num (.num 2 0), some (2000, 1)⟩,
        ⟨"2000", "M13", .num (.num 15 1), none⟩] ∧
    clean_dataframe
        [⟨"2000", "M01", .num (.num 2 0), some (2000, 1)⟩,
          ⟨"2000", "M13", .num (.num 15 1), none⟩] =
      .ok [⟨"2000", "M01", .num (.num 2 0), some (2000, 1)⟩,
        ⟨"2000", "M13", .num (.num 15 1), none⟩] :=
  ⟨by decide,
    clean_dataframe_idempotent
      [⟨"2000", "M13", .str "1.5", none⟩, ⟨"2000", "M01", .str "2", none⟩]
      [⟨"2000", "M01", .num (.num 2 0), some (2000, 1)⟩,
        ⟨"2000", "M13", .num (.num 15 1), none⟩] (by decide)⟩

/-- C6: `__clean_dataframe` derives each row's date by concatenating the
year with the period code stripped of its one-character prefix and
parsing the result as year-month; a combination that does not parse (for
example period `"M13"`, which yields month `13`) gives a null date, the
row is kept, and the cleaner never raises because of an unparseable
period — with every value convertible, cleaning succeeds whatever the
period fields hold. -/
theorem clean_dataframe_date_derivation (df : List Row)
    (h : ∀ r ∈ df, cellOk r.value = true) :
    (∃ out : List Row, clean_dataframe df = .ok out ∧
      (∀ r ∈ out, r.date = parseYM (dateStr r)) ∧
      List.Perm (out.map fun r => (r.year, r.period))
        (df.map fun r => (r.year, r.period))) ∧
    dateStr ⟨"2000", "M13", .str "1", none⟩ = "2000-13" ∧
    parseYM "2000-13" = none := by
  refine ⟨?_, by decide, by decide⟩
  obtain ⟨out, hout⟩ := (coerceValues_isOk _).mpr ((cellOk_sorted_iff df).mpr h)
  have hclean : clean_dataframe df = .ok out := hout
  exact ⟨out, hclean, clean_out_dates df out hclean, clean_out_perm_yp df out hclean⟩

/-- Witness for C6 on a one-row frame whose period is the annual-average
code `"M13"`. -/
theorem clean_dataframe_date_derivation_witness :
    (∃ out : List Row, clean_dataframe [⟨"2000", "M13", .str "1", none⟩] = .ok out ∧
      (∀ r ∈ out, r.date = parseYM (dateStr r)) ∧
      List.Perm (out.map fun r => (r.year, r.period))
        ([(⟨"2000", "M13", .str "1", none⟩ : Row)].map fun r => (r.year, r.period))) ∧
    dateStr ⟨"2000", "M13", .str "1", none⟩ = "2000-13" ∧
    parseYM "2000-13" = none :=
  clean_dataframe_date_derivation [⟨"2000", "M13", .str "1", none⟩] (by decide)

/-- C7: a successful clean is sorted ascending by the derived date with
null dates last (`rowLE`, i.e. pandas `sort_values` with the default
`na_position = "last"`), and no input row is dropped — the output's
`(year, period)` rows are a permutation of the input's. -/
theorem clean_dataframe_sorted_nothing_dropped (df out : List Row)
    (h : clean_dataframe df = .ok out) :
    out.Pairwise (rowLE · ·) ∧
    (out.Pairwise fun a b => a.date = none → b.date = none) ∧
    List.Perm (out.map fun r => (r.year, r.period))
      (df.map fun r => (r.year, r.period)) := by
  refine ⟨clean_out_pairwise df out h, ?_, clean_out_perm_yp df out h⟩
  refine (clean_out_pairwise df out h).imp ?_
  intro a b hab hnone
  have hle : dateLE a.date b.date := hab
  rw [hnone] at hle
  exact dateLE_none_left b.date hle

/-- Witness for C7 at a concrete frame with one null-date row sorted to
the back. -/
theorem clean_dataframe_sorted_nothing_dropped_witness :
    ([(⟨"2000", "M01", .num (.num 2 0), some (2000, 1)⟩ : Row),
        ⟨"2000", "M13", .num (.num 15 1), none⟩].Pairwise (rowLE · ·) ∧
      ([(⟨"2000", "M01", .num (.num 2 0), some (2000, 1)⟩ : Row),
        ⟨"2000", "M13", .num (.num 15 1), none⟩].Pairwise
          fun a b => a.date = none → b.date = none) ∧
      List.Perm
        ([(⟨"2000", "M01", .num (.num 2 0), some (2000, 1)⟩ : Row),
          ⟨"2000", "M13", .num (.num 15 1), none⟩].map fun r => (r.year, r.period))
        ([(⟨"2000", "M13", .str "1.5", none⟩ : Row),
          ⟨"2000", "M01", .str "2", none⟩].map fun r => (r.year, r.period))) :=
  clean_dataframe_sorted_nothing_dropped
    [⟨"2000", "M13", .str "1.5", none⟩, ⟨"2000", "M01", .str "2", none⟩]
    [⟨"2000", "M01", .num (.num 2 0), some (2000, 1)⟩,
      ⟨"2000", "M13", .num (.num 15 1), none⟩] (by decide)

/-- C9 counterexample: the claim exempts empty value fields, but
`astype(float)` raises on an empty string as well — a frame whose only
value is `""` makes the cleaner raise even though every value field is
"numeric or empty" in the claim's sense. -/
theorem clean_raises_on_empty_value_cell :
    clean_dataframe [⟨"2000", "M01", .str "", none⟩] =
      .error "could not convert string to float: " := by decide

/-- C9 (amended): cleaning succeeds exactly when every value field parses
as a Python float; a non-numeric value — the empty string included —
makes the value coercion raise. -/
theorem clean_ok_iff_values_parse (df : List Row) :
    (∃ out, clean_dataframe df = .ok out) ↔ ∀ r ∈ df, cellOk r.value = true :=
  (coerceValues_isOk (sort_values rowLE (df.map setDate))).trans
    (cellOk_sorted_iff df)

/-- Witness for C9: an all-numeric frame cleans successfully. -/
theorem clean_ok_iff_values_parse_witness :
    ∃ out, clean_dataframe [⟨"2000", "M01", .str "211.080", none⟩] = .ok out :=
  (clean_ok_iff_values_parse [⟨"2000", "M01", .str "211.080", none⟩]).mpr (by decide)

end CpiAnalysis
